import Mathlib

/-
Verification of the Renesas FSP DAC driver (ra/fsp/src/r_dac/r_dac.c) and the
TF-M platform key shim (ra/fsp/src/rm_tfm_port/ra/crypto_keys.c).

The DAC driver is embedded as pure functions over an explicit register file and
channel control block.  Compile-time feature macros of the C source become the
fields of a DacFeatures record, so every theorem is quantified over the build
configuration unless it hypothesises a particular flag.  Machine integers are
modelled as Nat with explicit reduction modulo 2^w where the C source performs
a narrowing cast.
-/

namespace DacModel

/-- Value of the DAC_OPEN macro in r_dac.c: the magic sentinel stored in
channel_opened by a successful open (DTC in ASCII). -/
def DAC_OPEN : Nat := 0x44414300

/-- Error codes of fsp_err_t that r_dac.c can return. -/
inductive fsp_err_t where
  | FSP_SUCCESS
  | FSP_ERR_ASSERTION
  | FSP_ERR_IP_CHANNEL_NOT_PRESENT
  | FSP_ERR_ALREADY_OPEN
  | FSP_ERR_NOT_OPEN
  | FSP_ERR_IN_USE
  deriving DecidableEq, Repr

/-- Compile-time configuration of the driver: the DAC_CFG and BSP_FEATURE
macros that select which branches of r_dac.c are compiled. -/
structure DacFeatures where
  /-- DAC_CFG_PARAM_CHECKING_ENABLE -/
  paramCheckingEnable : Bool
  /-- BSP_FEATURE_DAC_MAX_CHANNELS -/
  maxChannels : Nat
  /-- BSP_FEATURE_ADC_UNIT_1_CHANNELS, nonzero when the paired converter has a
  second unit -/
  adcUnit1Channels : Bool
  /-- BSP_FEATURE_DAC_HAS_OUTPUT_AMPLIFIER -/
  hasOutputAmplifier : Bool
  /-- BSP_FEATURE_DAC_HAS_DAVREFCR -/
  hasDavrefcr : Bool
  /-- BSP_FEATURE_DAC_HAS_CHARGEPUMP -/
  hasChargepump : Bool
  deriving DecidableEq, Repr

/-- The memory-mapped DAC register file plus the module-start side effects of
R_BSP_MODULE_START.  Bit fields that the driver addresses individually
(DAOE0/1, DAAMP0/1, DAASW0/1) are carried as booleans; whole-register writes
(DADPR, DAADSCR, DAADUSR, DAVREFCR, DAPC, DADR) as Nat values. -/
structure DacRegs where
  daoe0 : Bool
  daoe1 : Bool
  daamp0 : Bool
  daamp1 : Bool
  daasw0 : Bool
  daasw1 : Bool
  dadpr : Nat
  daadscr : Nat
  daadusr : Nat
  davrefcr : Nat
  dapc : Nat
  dadr0 : Nat
  dadr1 : Nat
  dacModuleStarted : Bool
  adcModuleStarted : Bool
  deriving DecidableEq, Repr

/-- The channel control block dac_instance_ctrl_t of r_dac.h.  channel_opened
is the uint32 sentinel: 0 means closed, DAC_OPEN means opened. -/
structure dac_instance_ctrl_t where
  channel : Nat
  channel_opened : Nat
  output_amplifier_enabled : Bool
  deriving DecidableEq, Repr

/-- The user configuration dac_cfg_t.  p_extend models the optional extended
configuration pointer: none is a NULL pointer, some v carries the
enable_charge_pump value of dac_extended_cfg_t. -/
structure dac_cfg_t where
  channel : Nat
  data_format : Nat
  ad_da_synchronized : Bool
  output_amplifier_enabled : Bool
  p_extend : Option Nat
  deriving DecidableEq, Repr

/-- Reads DACR.DAOE for a channel: bit DAOE0 when the channel is 0, DAOE1
otherwise, following the channel selection pattern used throughout r_dac.c. -/
def DacRegs.getDAOE (r : DacRegs) (ch : Nat) : Bool :=
  if ch = 0 then r.daoe0 else r.daoe1

/-- Writes DACR.DAOE for a channel. -/
def DacRegs.setDAOE (r : DacRegs) (ch : Nat) (b : Bool) : DacRegs :=
  if ch = 0 then { r with daoe0 := b } else { r with daoe1 := b }

/-- Reads DAAMPCR.DAAMP for a channel. -/
def DacRegs.getDAAMP (r : DacRegs) (ch : Nat) : Bool :=
  if ch = 0 then r.daamp0 else r.daamp1

/-- Writes DAAMPCR.DAAMP for a channel. -/
def DacRegs.setDAAMP (r : DacRegs) (ch : Nat) (b : Bool) : DacRegs :=
  if ch = 0 then { r with daamp0 := b } else { r with daamp1 := b }

/-- Reads DAASWCR.DAASW for a channel. -/
def DacRegs.getDAASW (r : DacRegs) (ch : Nat) : Bool :=
  if ch = 0 then r.daasw0 else r.daasw1

/-- Writes DAASWCR.DAASW for a channel. -/
def DacRegs.setDAASW (r : DacRegs) (ch : Nat) (b : Bool) : DacRegs :=
  if ch = 0 then { r with daasw0 := b } else { r with daasw1 := b }

/-- Reads the 16-bit data register DADR[ch]. -/
def DacRegs.getDADR (r : DacRegs) (ch : Nat) : Nat :=
  if ch = 0 then r.dadr0 else r.dadr1

/-- Writes the 16-bit data register DADR[ch]. -/
def DacRegs.setDADR (r : DacRegs) (ch : Nat) (v : Nat) : DacRegs :=
  if ch = 0 then { r with dadr0 := v } else { r with dadr1 := v }

/-- Embedding of R_DAC_Open.  The NULL checks on p_ctrl and p_cfg have no
counterpart because both arguments are values here; the remaining parameter
checks, the module start, the register initialisation sequence and the control
block update follow the source line by line. -/
def R_DAC_Open (f : DacFeatures) (p_ctrl : dac_instance_ctrl_t) (p_cfg : dac_cfg_t)
    (regs : DacRegs) : fsp_err_t × dac_instance_ctrl_t × DacRegs :=
  if f.paramCheckingEnable ∧ ¬ (p_cfg.channel < f.maxChannels) then
    (fsp_err_t.FSP_ERR_IP_CHANNEL_NOT_PRESENT, p_ctrl, regs)
  else if f.paramCheckingEnable ∧ p_ctrl.channel_opened ≠ 0 then
    (fsp_err_t.FSP_ERR_ALREADY_OPEN, p_ctrl, regs)
  else if f.paramCheckingEnable ∧ f.hasChargepump ∧ p_cfg.p_extend = none then
    (fsp_err_t.FSP_ERR_ASSERTION, p_ctrl, regs)
  else
    let r1 := { regs with dacModuleStarted := true }
    let r2 := r1.setDAOE p_cfg.channel false
    let r3 := { r2 with dadpr := ((p_cfg.data_format % 256) <<< 7) % 256 }
    let r4 :=
      if f.adcUnit1Channels then
        if r3.daadscr = 0 ∧ p_cfg.ad_da_synchronized then
          { r3 with adcModuleStarted := true, daadusr := 2, daadscr := 1 <<< 7 }
        else r3
      else
        { r3 with daadscr := (if p_cfg.ad_da_synchronized then 1 else 0) <<< 7 }
    let c1 :=
      if f.hasOutputAmplifier then
        { p_ctrl with output_amplifier_enabled := p_cfg.output_amplifier_enabled }
      else p_ctrl
    let r5 := if f.hasDavrefcr then { r4 with davrefcr := 1 } else r4
    let r6 := if f.hasChargepump then { r5 with dapc := p_cfg.p_extend.getD 0 } else r5
    (fsp_err_t.FSP_SUCCESS,
     { c1 with channel := p_cfg.channel, channel_opened := DAC_OPEN }, r6)

/-- Embedding of R_DAC_Write.  The value parameter is a uint16 in C; the model
stores it reduced modulo 2^16 as the 16-bit register does. -/
def R_DAC_Write (f : DacFeatures) (p_ctrl : dac_instance_ctrl_t) (value : Nat)
    (regs : DacRegs) : fsp_err_t × dac_instance_ctrl_t × DacRegs :=
  if f.paramCheckingEnable ∧ p_ctrl.channel_opened = 0 then
    (fsp_err_t.FSP_ERR_NOT_OPEN, p_ctrl, regs)
  else
    (fsp_err_t.FSP_SUCCESS, p_ctrl, regs.setDADR p_ctrl.channel (value % 65536))

/-- Embedding of R_DAC_Start.  The output amplifier branch performs the
stabilization sequence of the hardware manual; the software delay between the
last two register writes has no observable effect on the modelled state. -/
def R_DAC_Start (f : DacFeatures) (p_ctrl : dac_instance_ctrl_t)
    (regs : DacRegs) : fsp_err_t × dac_instance_ctrl_t × DacRegs :=
  if f.paramCheckingEnable ∧ p_ctrl.channel_opened = 0 then
    (fsp_err_t.FSP_ERR_NOT_OPEN, p_ctrl, regs)
  else if f.paramCheckingEnable ∧ regs.getDAOE p_ctrl.channel then
    (fsp_err_t.FSP_ERR_IN_USE, p_ctrl, regs)
  else if f.hasOutputAmplifier ∧ p_ctrl.output_amplifier_enabled then
    let value := regs.getDADR p_ctrl.channel
    let r1 := regs.setDADR p_ctrl.channel 0
    let r2 := r1.setDAOE p_ctrl.channel false
    let r3 := r2.setDAASW p_ctrl.channel true
    let r4 := r3.setDAAMP p_ctrl.channel true
    let r5 := r4.setDAOE p_ctrl.channel true
    let r6 := r5.setDAASW p_ctrl.channel false
    (fsp_err_t.FSP_SUCCESS, p_ctrl, r6.setDADR p_ctrl.channel value)
  else
    (fsp_err_t.FSP_SUCCESS, p_ctrl, regs.setDAOE p_ctrl.channel true)

/-- Embedding of R_DAC_Stop. -/
def R_DAC_Stop (f : DacFeatures) (p_ctrl : dac_instance_ctrl_t)
    (regs : DacRegs) : fsp_err_t × dac_instance_ctrl_t × DacRegs :=
  if f.paramCheckingEnable ∧ p_ctrl.channel_opened = 0 then
    (fsp_err_t.FSP_ERR_NOT_OPEN, p_ctrl, regs)
  else
    (fsp_err_t.FSP_SUCCESS, p_ctrl, regs.setDAOE p_ctrl.channel false)

/-- Embedding of R_DAC_Close: disables output and amplifier control for the
channel and clears the opened sentinel. -/
def R_DAC_Close (f : DacFeatures) (p_ctrl : dac_instance_ctrl_t)
    (regs : DacRegs) : fsp_err_t × dac_instance_ctrl_t × DacRegs :=
  if f.paramCheckingEnable ∧ p_ctrl.channel_opened = 0 then
    (fsp_err_t.FSP_ERR_NOT_OPEN, p_ctrl, regs)
  else
    let r1 := regs.setDAOE p_ctrl.channel false
    let r2 := r1.setDAAMP p_ctrl.channel false
    (fsp_err_t.FSP_SUCCESS, { p_ctrl with channel_opened := 0 }, r2)

/-- A zero-initialised control block, as caller-owned storage starts out. -/
def freshCtrl : dac_instance_ctrl_t :=
  { channel := 0, channel_opened := 0, output_amplifier_enabled := false }

/-- A power-on register file with everything cleared, used by the concrete
scenarios. -/
def regs0 : DacRegs :=
  { daoe0 := false, daoe1 := false, daamp0 := false, daamp1 := false
    daasw0 := false, daasw1 := false, dadpr := 0, daadscr := 0, daadusr := 0
    davrefcr := 0, dapc := 0, dadr0 := 0, dadr1 := 0
    dacModuleStarted := false, adcModuleStarted := false }

/-- A build configuration with parameter checking on, two channels, and the
output amplifier feature present (the RA6M3 shape the source comments cite). -/
def featA : DacFeatures :=
  { paramCheckingEnable := true, maxChannels := 2, adcUnit1Channels := true
    hasOutputAmplifier := true, hasDavrefcr := false, hasChargepump := false }

/-- A configuration for channel 0 with the output amplifier requested. -/
def cfgAmp : dac_cfg_t :=
  { channel := 0, data_format := 0, ad_da_synchronized := false
    output_amplifier_enabled := true, p_extend := none }

/-- A configuration for channel 0 without the output amplifier. -/
def cfgPlain : dac_cfg_t :=
  { channel := 0, data_format := 0, ad_da_synchronized := false
    output_amplifier_enabled := false, p_extend := none }

end DacModel

namespace CryptoKeys

/-- Length of a SHA-256 digest in bytes (the SHA256_LEN_BYTES macro). -/
def SHA256_LEN_BYTES : Nat := 32

/-- The two tfm_plat_err_t values used by crypto_keys.c. -/
inductive tfm_plat_err_t where
  | TFM_PLAT_ERR_SUCCESS
  | TFM_PLAT_ERR_SYSTEM_ERR
  deriving DecidableEq, Repr

/-- Environment of external services that crypto_keys.c calls: the PSA SHA-256
provider (an abstract digest function over the byte sequence fed to it, plus a
failure flag for each of the four PSA calls made) and the device unique
identifier returned by R_BSP_UniqueIdGet. -/
structure CryptoEnv where
  digest : List Nat → List Nat
  setup_fails : Bool
  update_label_fails : Bool
  update_id_fails : Bool
  finish_fails : Bool
  unique_id : List Nat

/-- Embedding of the static copy_key helper: the loop copies size bytes from
p_src into p_dst.  Running past the end of either buffer is out-of-bounds in
C; those cases are never reached by the callers modelled here. -/
def copy_key (p_dst p_src : List Nat) (size : Nat) : List Nat :=
  match size, p_dst, p_src with
  | 0, dst, _ => dst
  | _ + 1, [], _ => []
  | _ + 1, dst, [] => dst
  | n + 1, _ :: dst, s :: src => s :: copy_key dst src n

/-- Embedding of tfm_plat_get_huk_derived_key.  The context and context_size
parameters are received and cast to void by the source, so they do not occur
on the right-hand side.  The data hashed is label_size bytes of label followed
by the device unique identifier; on success the first key_size bytes of the
digest are copied into the key buffer. -/
def tfm_plat_get_huk_derived_key (env : CryptoEnv) (label : List Nat)
    (label_size : Nat) (_context : List Nat) (_context_size : Nat)
    (key : List Nat) (key_size : Nat) : tfm_plat_err_t × List Nat :=
  if key_size > SHA256_LEN_BYTES then
    (tfm_plat_err_t.TFM_PLAT_ERR_SYSTEM_ERR, key)
  else if env.setup_fails then
    (tfm_plat_err_t.TFM_PLAT_ERR_SYSTEM_ERR, key)
  else if env.update_label_fails then
    (tfm_plat_err_t.TFM_PLAT_ERR_SYSTEM_ERR, key)
  else if env.update_id_fails then
    (tfm_plat_err_t.TFM_PLAT_ERR_SYSTEM_ERR, key)
  else if env.finish_fails then
    (tfm_plat_err_t.TFM_PLAT_ERR_SYSTEM_ERR, key)
  else
    (tfm_plat_err_t.TFM_PLAT_ERR_SUCCESS,
     copy_key key (env.digest (label.take label_size ++ env.unique_id)) key_size)

/-- A concrete environment for the closed witnesses: a stand-in digest of 32
constant bytes and a 16-byte unique identifier. -/
def envW : CryptoEnv :=
  { digest := fun _ => List.replicate 32 7
    setup_fails := false, update_label_fails := false
    update_id_fails := false, finish_fails := false
    unique_id := List.replicate 16 1 }

end CryptoKeys

namespace DacModel

/-- An opened control block for channel 0 with the output amplifier enabled. -/
def ctrlAmp0 : dac_instance_ctrl_t :=
  { channel := 0, channel_opened := DAC_OPEN, output_amplifier_enabled := true }

/-- An opened control block for channel 0 without the output amplifier. -/
def ctrlPlain0 : dac_instance_ctrl_t :=
  { channel := 0, channel_opened := DAC_OPEN, output_amplifier_enabled := false }

/-- The power-on register file with 0xABCD already written to the channel 0
data register. -/
def regsAB : DacRegs := { regs0 with dadr0 := 0xABCD }

/-- C1: for an opened channel with the output-amplifier feature compiled in
and the amplifier enabled, Start (called when the channel is not yet
outputting) succeeds via the stabilization sequence, and on return the data
register of the channel holds exactly its pre-call value, the output-enable
and amplifier-control bits are set, and the stabilization-wait bit is clear. -/
theorem start_amp_restores_dadr (f : DacFeatures) (ctrl : dac_instance_ctrl_t)
    (regs : DacRegs) (hamp : f.hasOutputAmplifier = true)
    (hen : ctrl.output_amplifier_enabled = true)
    (hopen : ctrl.channel_opened ≠ 0)
    (hnotbusy : regs.getDAOE ctrl.channel = false) :
    (R_DAC_Start f ctrl regs).1 = fsp_err_t.FSP_SUCCESS ∧
    ((R_DAC_Start f ctrl regs).2.2).getDADR ctrl.channel
      = regs.getDADR ctrl.channel ∧
    ((R_DAC_Start f ctrl regs).2.2).getDAOE ctrl.channel = true ∧
    ((R_DAC_Start f ctrl regs).2.2).getDAAMP ctrl.channel = true ∧
    ((R_DAC_Start f ctrl regs).2.2).getDAASW ctrl.channel = false := by
  by_cases hch : ctrl.channel = 0 <;>
    simp only [DacRegs.getDAOE, hch, if_true, if_false, reduceIte] at hnotbusy <;>
    simp [R_DAC_Start, DacRegs.getDADR, DacRegs.setDADR, DacRegs.getDAOE,
      DacRegs.setDAOE, DacRegs.getDAASW, DacRegs.setDAASW, DacRegs.getDAAMP,
      DacRegs.setDAAMP, hch, hamp, hen, hopen, hnotbusy]

/-- Closed instance of start_amp_restores_dadr: channel 0, data register
0xABCD before Start, 0xABCD after. -/
theorem start_amp_restores_dadr_witness :
    (R_DAC_Start featA ctrlAmp0 regsAB).1 = fsp_err_t.FSP_SUCCESS ∧
    ((R_DAC_Start featA ctrlAmp0 regsAB).2.2).getDADR ctrlAmp0.channel
      = regsAB.getDADR ctrlAmp0.channel ∧
    ((R_DAC_Start featA ctrlAmp0 regsAB).2.2).getDAOE ctrlAmp0.channel = true ∧
    ((R_DAC_Start featA ctrlAmp0 regsAB).2.2).getDAAMP ctrlAmp0.channel = true ∧
    ((R_DAC_Start featA ctrlAmp0 regsAB).2.2).getDAASW ctrlAmp0.channel = false :=
  start_amp_restores_dadr featA ctrlAmp0 regsAB rfl rfl (by decide) (by decide)

/-- C2: for each of the five operations, any error return leaves the control
block and the whole register file untouched: every error path exits before
the first hardware access. -/
theorem error_returns_touch_nothing (f : DacFeatures)
    (ctrl : dac_instance_ctrl_t) (cfg : dac_cfg_t) (value : Nat)
    (regs : DacRegs) :
    ((R_DAC_Open f ctrl cfg regs).1 ≠ fsp_err_t.FSP_SUCCESS →
      (R_DAC_Open f ctrl cfg regs).2 = (ctrl, regs)) ∧
    ((R_DAC_Write f ctrl value regs).1 ≠ fsp_err_t.FSP_SUCCESS →
      (R_DAC_Write f ctrl value regs).2 = (ctrl, regs)) ∧
    ((R_DAC_Start f ctrl regs).1 ≠ fsp_err_t.FSP_SUCCESS →
      (R_DAC_Start f ctrl regs).2 = (ctrl, regs)) ∧
    ((R_DAC_Stop f ctrl regs).1 ≠ fsp_err_t.FSP_SUCCESS →
      (R_DAC_Stop f ctrl regs).2 = (ctrl, regs)) ∧
    ((R_DAC_Close f ctrl regs).1 ≠ fsp_err_t.FSP_SUCCESS →
      (R_DAC_Close f ctrl regs).2 = (ctrl, regs)) := by
  refine ⟨?_, ?_, ?_, ?_, ?_⟩
  · unfold R_DAC_Open
    split
    · simp
    · split
      · simp
      · split <;> simp
  · unfold R_DAC_Write
    split <;> simp
  · unfold R_DAC_Start
    split
    · simp
    · split
      · simp
      · split <;> simp
  · unfold R_DAC_Stop
    split <;> simp
  · unfold R_DAC_Close
    split <;> simp

/-- Closed instance of error_returns_touch_nothing: Open on an already opened
block fails and changes neither the block nor the registers. -/
theorem error_returns_touch_nothing_witness :
    (R_DAC_Open featA ctrlAmp0 cfgAmp regs0).2 = (ctrlAmp0, regs0) :=
  (error_returns_touch_nothing featA ctrlAmp0 cfgAmp 0 regs0).1 (by decide)

/-- C4: with parameter checking compiled in, each of Write, Start, Stop and
Close on a never-opened control block (zero opened sentinel) returns the
not-open error. -/
theorem ops_before_open_return_not_open (f : DacFeatures)
    (ctrl : dac_instance_ctrl_t) (value : Nat) (regs : DacRegs)
    (hfresh : ctrl.channel_opened = 0)
    (hcheck : f.paramCheckingEnable = true) :
    (R_DAC_Write f ctrl value regs).1 = fsp_err_t.FSP_ERR_NOT_OPEN ∧
    (R_DAC_Start f ctrl regs).1 = fsp_err_t.FSP_ERR_NOT_OPEN ∧
    (R_DAC_Stop f ctrl regs).1 = fsp_err_t.FSP_ERR_NOT_OPEN ∧
    (R_DAC_Close f ctrl regs).1 = fsp_err_t.FSP_ERR_NOT_OPEN := by
  simp [R_DAC_Write, R_DAC_Start, R_DAC_Stop, R_DAC_Close, hfresh, hcheck]

/-- Closed instance of ops_before_open_return_not_open on the zero block. -/
theorem ops_before_open_return_not_open_witness :
    (R_DAC_Write featA freshCtrl 0x0200 regs0).1 = fsp_err_t.FSP_ERR_NOT_OPEN ∧
    (R_DAC_Start featA freshCtrl regs0).1 = fsp_err_t.FSP_ERR_NOT_OPEN ∧
    (R_DAC_Stop featA freshCtrl regs0).1 = fsp_err_t.FSP_ERR_NOT_OPEN ∧
    (R_DAC_Close featA freshCtrl regs0).1 = fsp_err_t.FSP_ERR_NOT_OPEN :=
  ops_before_open_return_not_open featA freshCtrl 0x0200 regs0 rfl rfl

/-- C5: with parameter checking compiled in, Start on an opened channel whose
output-enable bit is already set returns the in-use error. -/
theorem start_busy_returns_in_use (f : DacFeatures)
    (ctrl : dac_instance_ctrl_t) (regs : DacRegs)
    (hopen : ctrl.channel_opened ≠ 0)
    (hbusy : regs.getDAOE ctrl.channel = true)
    (hcheck : f.paramCheckingEnable = true) :
    (R_DAC_Start f ctrl regs).1 = fsp_err_t.FSP_ERR_IN_USE := by
  simp [R_DAC_Start, hopen, hbusy, hcheck]

/-- Closed instance of start_busy_returns_in_use: a second Start on channel 0
right after a successful one. -/
theorem start_busy_returns_in_use_witness :
    (R_DAC_Start featA ctrlPlain0
      ((R_DAC_Start featA ctrlPlain0 regs0).2.2)).1 = fsp_err_t.FSP_ERR_IN_USE :=
  start_busy_returns_in_use featA ctrlPlain0
    ((R_DAC_Start featA ctrlPlain0 regs0).2.2) (by decide) (by decide) rfl

/-- C3: Open on the zero-initialised block with a valid configuration (channel
in range, extended configuration present whenever the charge pump feature
requires it) succeeds and marks the block opened; with parameter checking
compiled in, a second Open on the resulting block returns the already-open
error. -/
theorem open_fresh_then_reopen (f : DacFeatures) (cfg : dac_cfg_t)
    (regs regs2 : DacRegs)
    (hch : cfg.channel < f.maxChannels)
    (hext : f.hasChargepump = true → cfg.p_extend ≠ none)
    (hcheck : f.paramCheckingEnable = true) :
    (R_DAC_Open f freshCtrl cfg regs).1 = fsp_err_t.FSP_SUCCESS ∧
    ((R_DAC_Open f freshCtrl cfg regs).2.1).channel_opened ≠ 0 ∧
    (R_DAC_Open f ((R_DAC_Open f freshCtrl cfg regs).2.1) cfg regs2).1
      = fsp_err_t.FSP_ERR_ALREADY_OPEN := by
  have hext2 : ¬ (f.hasChargepump = true ∧ cfg.p_extend = none) := by
    rintro ⟨hcp, hnone⟩
    exact hext hcp hnone
  refine ⟨?_, ?_, ?_⟩ <;>
    simp [R_DAC_Open, freshCtrl, DAC_OPEN, hch, hcheck, hext2]

/-- Closed instance of open_fresh_then_reopen at channel 0. -/
theorem open_fresh_then_reopen_witness :
    (R_DAC_Open featA freshCtrl cfgAmp regs0).1 = fsp_err_t.FSP_SUCCESS ∧
    ((R_DAC_Open featA freshCtrl cfgAmp regs0).2.1).channel_opened ≠ 0 ∧
    (R_DAC_Open featA ((R_DAC_Open featA freshCtrl cfgAmp regs0).2.1) cfgAmp
      regs0).1 = fsp_err_t.FSP_ERR_ALREADY_OPEN :=
  open_fresh_then_reopen featA cfgAmp regs0 regs0 (by decide) (by decide) rfl

/-- The concrete lifecycle used by the specification scenario: Open channel 0,
Write 0x0200, Start, Stop, Close, then Open again, threading the control
block and the register file through. -/
def scen1 : fsp_err_t × dac_instance_ctrl_t × DacRegs :=
  R_DAC_Open featA freshCtrl cfgPlain regs0

/-- Scenario step 2: Write 0x0200. -/
def scen2 : fsp_err_t × dac_instance_ctrl_t × DacRegs :=
  R_DAC_Write featA scen1.2.1 0x0200 scen1.2.2

/-- Scenario step 3: Start. -/
def scen3 : fsp_err_t × dac_instance_ctrl_t × DacRegs :=
  R_DAC_Start featA scen2.2.1 scen2.2.2

/-- Scenario step 4: Stop. -/
def scen4 : fsp_err_t × dac_instance_ctrl_t × DacRegs :=
  R_DAC_Stop featA scen3.2.1 scen3.2.2

/-- Scenario step 5: Close. -/
def scen5 : fsp_err_t × dac_instance_ctrl_t × DacRegs :=
  R_DAC_Close featA scen4.2.1 scen4.2.2

/-- Scenario step 6: Open again on the same block. -/
def scen6 : fsp_err_t × dac_instance_ctrl_t × DacRegs :=
  R_DAC_Open featA scen5.2.1 cfgPlain scen5.2.2

/-- C6: every successful Start leaves the output-enable bit of its channel
set and every successful Stop leaves it clear; the concrete lifecycle
Open(channel 0), Write 0x0200, Start, Stop, Close, Open succeeds end to end
with output-enable reading 1 after Start and 0 after Stop. -/
theorem start_sets_stop_clears_output_enable :
    (∀ (f : DacFeatures) (ctrl : dac_instance_ctrl_t) (regs : DacRegs),
      (R_DAC_Start f ctrl regs).1 = fsp_err_t.FSP_SUCCESS →
      ((R_DAC_Start f ctrl regs).2.2).getDAOE ctrl.channel = true) ∧
    (∀ (f : DacFeatures) (ctrl : dac_instance_ctrl_t) (regs : DacRegs),
      (R_DAC_Stop f ctrl regs).1 = fsp_err_t.FSP_SUCCESS →
      ((R_DAC_Stop f ctrl regs).2.2).getDAOE ctrl.channel = false) ∧
    (scen1.1 = fsp_err_t.FSP_SUCCESS ∧
     scen2.1 = fsp_err_t.FSP_SUCCESS ∧
     scen3.1 = fsp_err_t.FSP_SUCCESS ∧
     (scen3.2.2).getDAOE 0 = true ∧
     scen4.1 = fsp_err_t.FSP_SUCCESS ∧
     (scen4.2.2).getDAOE 0 = false ∧
     scen5.1 = fsp_err_t.FSP_SUCCESS ∧
     scen6.1 = fsp_err_t.FSP_SUCCESS) := by
  refine ⟨?_, ?_, ?_⟩
  · intro f ctrl regs hs
    by_cases h1 : f.paramCheckingEnable = true ∧ ctrl.channel_opened = 0
    · simp [R_DAC_Start, h1] at hs
    by_cases h2 : f.paramCheckingEnable = true ∧ regs.getDAOE ctrl.channel = true
    · have hop : ctrl.channel_opened ≠ 0 := fun h => h1 ⟨h2.1, h⟩
      simp [R_DAC_Start, hop, h2] at hs
    by_cases h3 : f.hasOutputAmplifier = true ∧ ctrl.output_amplifier_enabled = true
    all_goals
      by_cases hch : ctrl.channel = 0 <;>
        simp only [DacRegs.getDAOE, hch, if_true, if_false, reduceIte] at h2 <;>
        simp [R_DAC_Start, h1, h2, h3, hch, DacRegs.getDAOE, DacRegs.setDAOE,
          DacRegs.getDADR, DacRegs.setDADR, DacRegs.setDAASW, DacRegs.setDAAMP]
  · intro f ctrl regs hs
    by_cases h1 : f.paramCheckingEnable = true ∧ ctrl.channel_opened = 0
    · simp [R_DAC_Stop, h1] at hs
    by_cases hch : ctrl.channel = 0 <;>
      simp [R_DAC_Stop, h1, hch, DacRegs.getDAOE, DacRegs.setDAOE]
  · decide

/-- Closed instance of the universal parts of
start_sets_stop_clears_output_enable at channel 0. -/
theorem start_sets_stop_clears_output_enable_witness :
    ((R_DAC_Start featA ctrlPlain0 regs0).2.2).getDAOE ctrlPlain0.channel
      = true :=
  start_sets_stop_clears_output_enable.1 featA ctrlPlain0 regs0 (by decide)

/-- C7: Close on any opened control block succeeds, resets the opened
sentinel, and a following Open with a valid configuration succeeds. -/
theorem close_resets_then_open_succeeds (f : DacFeatures)
    (ctrl : dac_instance_ctrl_t) (cfg : dac_cfg_t) (regs regs2 : DacRegs)
    (hopen : ctrl.channel_opened ≠ 0)
    (hch : cfg.channel < f.maxChannels)
    (hext : f.hasChargepump = true → cfg.p_extend ≠ none) :
    (R_DAC_Close f ctrl regs).1 = fsp_err_t.FSP_SUCCESS ∧
    ((R_DAC_Close f ctrl regs).2.1).channel_opened = 0 ∧
    (R_DAC_Open f ((R_DAC_Close f ctrl regs).2.1) cfg regs2).1
      = fsp_err_t.FSP_SUCCESS := by
  have hext2 : ¬ (f.hasChargepump = true ∧ cfg.p_extend = none) := by
    rintro ⟨hcp, hnone⟩
    exact hext hcp hnone
  refine ⟨?_, ?_, ?_⟩ <;>
    simp [R_DAC_Close, R_DAC_Open, hopen, hch, hext2]

/-- Closed instance of close_resets_then_open_succeeds at channel 0. -/
theorem close_resets_then_open_succeeds_witness :
    (R_DAC_Close featA ctrlPlain0 regs0).1 = fsp_err_t.FSP_SUCCESS ∧
    ((R_DAC_Close featA ctrlPlain0 regs0).2.1).channel_opened = 0 ∧
    (R_DAC_Open featA ((R_DAC_Close featA ctrlPlain0 regs0).2.1) cfgPlain
      regs0).1 = fsp_err_t.FSP_SUCCESS :=
  close_resets_then_open_succeeds featA ctrlPlain0 cfgPlain regs0 regs0
    (by decide) (by decide) (by decide)

/-- C8: Write on an opened block with a 16-bit value returns success and its
whole effect is the single data-register update of the channel: the control
block and every other register field are returned unchanged. -/
theorem write_stores_value_frame (f : DacFeatures)
    (ctrl : dac_instance_ctrl_t) (value : Nat) (regs : DacRegs)
    (hopen : ctrl.channel_opened ≠ 0) (hv : value < 65536) :
    R_DAC_Write f ctrl value regs =
      (fsp_err_t.FSP_SUCCESS, ctrl,
        if ctrl.channel = 0 then { regs with dadr0 := value }
        else { regs with dadr1 := value }) := by
  simp [R_DAC_Write, DacRegs.setDADR, hopen, Nat.mod_eq_of_lt hv]

/-- Closed instance of write_stores_value_frame: writing 0x0200 on channel 0
only replaces the channel 0 data register. -/
theorem write_stores_value_frame_witness :
    R_DAC_Write featA ctrlPlain0 0x0200 regs0 =
      (fsp_err_t.FSP_SUCCESS, ctrlPlain0,
        if ctrlPlain0.channel = 0 then { regs0 with dadr0 := 0x0200 }
        else { regs0 with dadr1 := 0x0200 }) :=
  write_stores_value_frame featA ctrlPlain0 0x0200 regs0 (by decide) (by decide)

end DacModel

namespace CryptoKeys

/-- C9: the derived key operation ignores context and context_size; two calls
agreeing on the environment (digest provider and device unique identifier),
label, label_size, key buffer and key_size return identical status and key
bytes whatever the two context buffers hold. -/
theorem huk_derived_key_ignores_context (env : CryptoEnv) (label : List Nat)
    (label_size : Nat) (ctx1 : List Nat) (ctx1_size : Nat) (ctx2 : List Nat)
    (ctx2_size : Nat) (key : List Nat) (key_size : Nat) :
    tfm_plat_get_huk_derived_key env label label_size ctx1 ctx1_size key
      key_size
      = tfm_plat_get_huk_derived_key env label label_size ctx2 ctx2_size key
          key_size := rfl

/-- The copy_key loop replaces the first n bytes of the destination by the
first n bytes of the source when both buffers are long enough. -/
theorem copy_key_take_drop (dst src : List Nat) (n : Nat)
    (hd : n ≤ dst.length) (hs : n ≤ src.length) :
    copy_key dst src n = src.take n ++ dst.drop n := by
  induction n generalizing dst src with
  | zero => simp [copy_key]
  | succ k ih =>
    cases dst with
    | nil => simp at hd
    | cons d dst =>
      cases src with
      | nil => simp at hs
      | cons s src =>
        simp only [copy_key, List.take_succ_cons, List.drop_succ_cons,
          List.cons_append, List.cons.injEq, true_and]
        exact ih dst src (by simpa using hd) (by simpa using hs)

/-- C10: for key_size above 32 the derived key operation returns a system
error with the key buffer untouched; for key_size at most 32, when every PSA
hash step succeeds, it returns success with exactly the first key_size bytes
of SHA-256(label bytes then device unique identifier) written at the front of
the key buffer and the remainder of the buffer untouched. -/
theorem huk_derived_key_correct (env : CryptoEnv) (label : List Nat)
    (label_size : Nat) (ctx : List Nat) (ctx_size : Nat) (key : List Nat)
    (key_size : Nat)
    (hdig : (env.digest (label.take label_size ++ env.unique_id)).length = 32)
    (hkey : key_size ≤ key.length) :
    (key_size > 32 →
      tfm_plat_get_huk_derived_key env label label_size ctx ctx_size key
        key_size = (tfm_plat_err_t.TFM_PLAT_ERR_SYSTEM_ERR, key)) ∧
    (key_size ≤ 32 → env.setup_fails = false → env.update_label_fails = false →
      env.update_id_fails = false → env.finish_fails = false →
      tfm_plat_get_huk_derived_key env label label_size ctx ctx_size key
        key_size
        = (tfm_plat_err_t.TFM_PLAT_ERR_SUCCESS,
           (env.digest (label.take label_size ++ env.unique_id)).take key_size
             ++ key.drop key_size)) := by
  constructor
  · intro hgt
    simp [tfm_plat_get_huk_derived_key, SHA256_LEN_BYTES, hgt]
  · intro hle hsetup hu1 hu2 hfin
    have hsrc : key_size ≤
        (env.digest (label.take label_size ++ env.unique_id)).length := by
      rw [hdig]
      exact hle
    simp [tfm_plat_get_huk_derived_key, SHA256_LEN_BYTES, Nat.not_lt.mpr hle,
      hsetup, hu1, hu2, hfin, copy_key_take_drop key _ key_size hkey hsrc]

/-- Closed instance of huk_derived_key_correct: a 4-byte key request against
the stand-in digest provider yields the first 4 digest bytes followed by the
untouched tail of the key buffer. -/
theorem huk_derived_key_correct_witness :
    tfm_plat_get_huk_derived_key envW [5, 6] 2 [9] 1 (List.replicate 32 0) 4
      = (tfm_plat_err_t.TFM_PLAT_ERR_SUCCESS,
         (envW.digest (List.take 2 [5, 6] ++ envW.unique_id)).take 4
           ++ (List.replicate 32 0).drop 4) :=
  (huk_derived_key_correct envW [5, 6] 2 [9] 1 (List.replicate 32 0) 4
    (by simp [envW]) (by simp)).2 (by decide) rfl rfl rfl rfl

end CryptoKeys
